import Mathlib

/-!
Verification of the dialogue-intelligence core of the decisiongpt backend:
the conversation-phase state machine, thread/observation tracking, the
thread-priority scorer, the response validator with its bounded
generate/validate/regenerate loop, and the per-turn orchestration of
`PsychologistEngine.process_message`.

The Python sources embedded here are
`backend/app/schemas/psychologist_state.py`,
`backend/app/services/psychologist_engine.py`, and the merge-relevant
helpers of `backend/app/services/pattern_detector.py`.

Modelling conventions: Python `int` becomes `Int`; Python `float`
(relevance scores, confidences, score weights) becomes `Rat`, i.e. the
arithmetic is exact; Python `str` becomes `String`, with the character
level operations (lowercasing, stripping, substring search, the fixed
regexes of the source) implemented explicitly on `List Char` for the
ASCII fragment the source's patterns live in; in-place mutation of the
shared state object becomes explicit state passing, and the AI
generation collaborator becomes an oracle argument that can fail.
-/

namespace DecisionGpt

/-! ## Character and string helpers (ASCII fragment of Python semantics) -/

/-- ASCII lowercasing of one character, as Python `str.lower` acts on ASCII. -/
def lowerChar (c : Char) : Char :=
  if 'A' ≤ c ∧ c ≤ 'Z' then Char.ofNat (c.toNat + 32) else c

/-- ASCII uppercasing of one character, as Python `str.upper` acts on ASCII. -/
def upperChar (c : Char) : Char :=
  if 'a' ≤ c ∧ c ≤ 'z' then Char.ofNat (c.toNat - 32) else c

/-- Lowercase a character list. -/
def lowerL (l : List Char) : List Char := l.map lowerChar

/-- Lowercase a string (`str.lower`). -/
def lowerS (s : String) : String := String.mk (lowerL s.data)

/-- The ASCII whitespace characters recognised by Python `str.strip`,
`str.split` and the regex class `\s`. -/
def isPySpace (c : Char) : Bool :=
  c = ' ' ∨ c = '\t' ∨ c = '\n' ∨ c = '\x0d' ∨ c = '\x0b' ∨ c = '\x0c'

/-- Python `str.strip()`: drop whitespace from both ends. -/
def pyStrip (l : List Char) : List Char :=
  ((l.dropWhile isPySpace).reverse.dropWhile isPySpace).reverse

/-- Prefix test on character lists (Python `str.startswith`). -/
def leadsWith : List Char → List Char → Bool
  | [], _ => true
  | _ :: _, [] => false
  | a :: as, b :: bs => a = b && leadsWith as bs

/-- Substring test (Python `needle in hay`). -/
def hasSub (needle : List Char) : List Char → Bool
  | [] => leadsWith needle []
  | c :: cs => leadsWith needle (c :: cs) || hasSub needle cs

/-- Word characters of the regex class `\w` (ASCII fragment). -/
def isWordChar (c : Char) : Bool :=
  ('a' ≤ c ∧ c ≤ 'z') ∨ ('A' ≤ c ∧ c ≤ 'Z') ∨ ('0' ≤ c ∧ c ≤ '9') ∨ c = '_'

/-- The question-mark character. -/
def qm : Char := '?'

/-- Number of question marks in a character list (Python `text.count("?")`). -/
def countQ (l : List Char) : Nat := l.count qm

/-! ## Enumerations of `psychologist_state.py` -/

/-- `ConversationPhase`: the ordered closed set of coaching phases. -/
inductive ConversationPhase where
  | opening
  | exploration
  | deepening
  | insight
  | closing
deriving DecidableEq

/-- The `.value` string of a `ConversationPhase` member. -/
def ConversationPhase.value : ConversationPhase → String
  | .opening => "opening"
  | .exploration => "exploration"
  | .deepening => "deepening"
  | .insight => "insight"
  | .closing => "closing"

/-- `EmotionalIntensity` of a thread. -/
inductive EmotionalIntensity where
  | low
  | medium
  | high
  | critical
deriving DecidableEq

/-- `ThreadType`: kinds of conversational threads. -/
inductive ThreadType where
  | mentioned
  | emotional
  | pattern
  | contradiction
  | value
deriving DecidableEq

/-- `ResponseMove`: the rhetorical function of one coach turn. -/
inductive ResponseMove where
  | reflection
  | observation
  | challenge
  | deepening_question
  | synthesis
  | insight
  | transition
deriving DecidableEq

/-! ## Data structures of `psychologist_state.py` -/

/-- `Thread`: a conversational thread worth exploring. -/
structure Thread where
  id : String
  topic : String
  type : ThreadType := .mentioned
  emotional_intensity : EmotionalIntensity := .medium
  relevance_score : Rat := 1/2
  exploration_depth : Int := 0
  first_mentioned_exchange : Int := 0
  last_touched_exchange : Int := 0
  related_quotes : List String := []
  notes : Option String := none
deriving DecidableEq

/-- `Observation`: a detected pattern or insight to surface at the
right moment. -/
structure Observation where
  id : String
  type : String
  text : String
  confidence : Rat := 7/10
  supporting_quotes : List String := []
  surfaced : Bool := false
  surfaced_at_exchange : Option Int := none
  user_confirmed : Option Bool := none
deriving DecidableEq

/-- `PsychologistConversationState`: aggregate conversation state. -/
structure PsychologistConversationState where
  current_phase : ConversationPhase := .opening
  phase_exchange_count : Int := 0
  total_exchange_count : Int := 0
  active_threads : List Thread := []
  current_thread_id : Option String := none
  completed_threads : List String := []
  observations : List Observation := []
  last_synthesis_exchange : Int := 0
  synthesis_points : List String := []
  last_move : Option ResponseMove := none
  move_history : List ResponseMove := []
  dominant_emotion : Option String := none
  core_issue_identified : Bool := false
  core_issue_statement : Option String := none
  ready_for_options : Bool := false
  transition_reason : Option String := none
deriving DecidableEq

/-- `create_initial_state` / pydantic defaults: a fresh conversation state. -/
def initialState : PsychologistConversationState := {}

/-! ## Thread priority scoring (`Thread.compute_priority_score`) -/

/-- The `intensity_scores` table inside `compute_priority_score`. -/
def intensityScore : EmotionalIntensity → Rat
  | .low => 20
  | .medium => 50
  | .high => 80
  | .critical => 100

/-- `Thread.compute_priority_score`: weighted priority of a thread at the
given exchange index. -/
def Thread.compute_priority_score (t : Thread) (current_exchange : Int) : Rat :=
  let intensity := intensityScore t.emotional_intensity
  let relevance := t.relevance_score * 100
  let unexplored := max 0 (100 - (t.exploration_depth : Rat) * 40)
  let exchanges_since : Int := current_exchange - t.last_touched_exchange
  let recency := max 0 (100 - (exchanges_since : Rat) * 20)
  intensity * (35/100) + relevance * (30/100) +
    unexplored * (20/100) + recency * (15/100)

/-! ## State queries and the phase machine -/

/-- `needs_synthesis`: true when 3 or more exchanges passed since the last
synthesis. -/
def PsychologistConversationState.needs_synthesis
    (s : PsychologistConversationState) : Bool :=
  decide (3 ≤ s.total_exchange_count - s.last_synthesis_exchange)

/-- `get_unsurfaced_observations`: the not-yet-surfaced observations with
confidence at least 0.6, in stored order. -/
def PsychologistConversationState.get_unsurfaced_observations
    (s : PsychologistConversationState) : List Observation :=
  s.observations.filter (fun o => !o.surfaced && decide ((3/5 : Rat) ≤ o.confidence))

/-- Per-phase transition rule: minimum and maximum exchange counts plus the
named boolean conditions, as in the `phase_rules` dict of
`should_transition_phase`. -/
structure PhaseRule where
  min_exchanges : Int
  max_exchanges : Int
  conditions : List (String × Bool)

/-- Python `lst[-3:]`: the last (up to) three elements. -/
def lastThree {α : Type} (l : List α) : List α := l.drop (l.length - 3)

/-- The `phase_rules` table of `should_transition_phase`, evaluated against
a state. -/
def phaseRules (s : PsychologistConversationState) :
    ConversationPhase → PhaseRule
  | .opening =>
    { min_exchanges := 1, max_exchanges := 3,
      conditions :=
        [("threads_identified", decide (2 ≤ s.active_threads.length))] }
  | .exploration =>
    { min_exchanges := 2, max_exchanges := 5,
      conditions :=
        [("pattern_detected", decide (0 < s.observations.length)),
         ("thread_explored",
          s.active_threads.any (fun t => decide (2 ≤ t.exploration_depth)))] }
  | .deepening =>
    { min_exchanges := 2, max_exchanges := 4,
      conditions :=
        [("core_issue_identified", s.core_issue_identified),
         ("observation_surfaced", s.observations.any (fun o => o.surfaced))] }
  | .insight =>
    { min_exchanges := 1, max_exchanges := 3,
      conditions :=
        [("insight_given",
          if 1 ≤ s.move_history.length
          then decide (ResponseMove.insight ∈ lastThree s.move_history)
          else false)] }
  | .closing =>
    { min_exchanges := 1, max_exchanges := 2, conditions := [] }

/-- `should_transition_phase`: decide whether to move to the next phase,
returning the flag and the reason. -/
def PsychologistConversationState.should_transition_phase
    (s : PsychologistConversationState) : Bool × Option String :=
  let rules := phaseRules s s.current_phase
  if rules.max_exchanges ≤ s.phase_exchange_count then
    (true, some ("Reached max exchanges for " ++ s.current_phase.value))
  else if s.phase_exchange_count < rules.min_exchanges then
    (false, none)
  else
    match rules.conditions.find? (fun c => c.2) with
    | some c => (true, some c.1)
    | none => (false, none)

/-- The `phase_order` list of `get_next_phase`. -/
def phaseOrder : List ConversationPhase :=
  [.opening, .exploration, .deepening, .insight, .closing]

/-- `get_next_phase`: the immediate successor phase, or `none` at the end
of the order. -/
def PsychologistConversationState.get_next_phase
    (s : PsychologistConversationState) : Option ConversationPhase :=
  let idx := phaseOrder.findIdx (fun p => p = s.current_phase)
  if idx < phaseOrder.length - 1 then phaseOrder.get? (idx + 1) else none

/-- `advance_phase`: move to the next phase (if any), reset the in-phase
counter, record the reason, and mark readiness on entering closing. -/
def PsychologistConversationState.advance_phase
    (s : PsychologistConversationState) (reason : String) :
    PsychologistConversationState :=
  match s.get_next_phase with
  | none => s
  | some next_phase =>
    let s := { s with current_phase := next_phase,
                      phase_exchange_count := 0,
                      transition_reason := some reason }
    if next_phase = .closing then { s with ready_for_options := true } else s

/-- Modelled from the spec's phase order (for comparison with the source's
`get_next_phase`): the immediate successor in
opening < exploration < deepening < insight < closing, or none at closing. -/
def specNextPhase : ConversationPhase → Option ConversationPhase
  | .opening => some .exploration
  | .exploration => some .deepening
  | .deepening => some .insight
  | .insight => some .closing
  | .closing => none

/-! ## Theorems for claims C1 to C4 -/

/-- Concrete opening-phase state with three in-phase exchanges. -/
def stOpen3 : PsychologistConversationState :=
  { initialState with phase_exchange_count := 3 }

/-- Concrete insight-phase state with two in-phase exchanges. -/
def stInsight2 : PsychologistConversationState :=
  { initialState with current_phase := .insight, phase_exchange_count := 2 }

/-- Concrete closing-phase state. -/
def stClosing : PsychologistConversationState :=
  { initialState with current_phase := .closing }

/-- C1: `should_transition_phase` always answers true once the in-phase
exchange counter has reached the phase's `max_exchanges`, whatever the
named conditions evaluate to, and never answers true while the counter is
below the phase's `min_exchanges`. -/
theorem should_transition_max_forces_min_blocks
    (s : PsychologistConversationState) :
    ((phaseRules s s.current_phase).max_exchanges ≤ s.phase_exchange_count →
      s.should_transition_phase.1 = true) ∧
    (s.phase_exchange_count < (phaseRules s s.current_phase).min_exchanges →
      s.should_transition_phase.1 = false) := by
  constructor
  · intro h
    simp [PsychologistConversationState.should_transition_phase, h]
  · intro h
    have hmm : ¬ (phaseRules s s.current_phase).max_exchanges ≤
        s.phase_exchange_count := by
      cases hp : s.current_phase <;>
        simp [phaseRules, hp] at h ⊢ <;> omega
    simp [PsychologistConversationState.should_transition_phase, hmm, h]

/-- C1 witness: in the opening phase, a counter of 3 meets the maximum of 3
and forces a transition, and a counter of 0 is below the minimum of 1 and
blocks it. -/
theorem should_transition_max_forces_min_blocks_witness :
    (stOpen3.should_transition_phase.1 = true) ∧
    (initialState.should_transition_phase.1 = false) :=
  ⟨(should_transition_max_forces_min_blocks stOpen3).1 (by decide),
   (should_transition_max_forces_min_blocks initialState).2 (by decide)⟩

/-- C2: `get_next_phase` yields exactly the immediate successor in the
order opening, exploration, deepening, insight, closing (none at closing);
`advance_phase` moves to that successor, resets the in-phase counter,
records the reason, and turns on `ready_for_options` exactly when the
phase entered is closing, leaving the flag untouched otherwise; in the
closing phase `advance_phase` changes nothing. -/
theorem advance_phase_steps_order (s : PsychologistConversationState)
    (reason : String) :
    (s.get_next_phase = specNextPhase s.current_phase) ∧
    (∀ p, s.get_next_phase = some p →
      s.advance_phase reason =
        { s with current_phase := p,
                 phase_exchange_count := 0,
                 transition_reason := some reason,
                 ready_for_options :=
                   if p = .closing then true else s.ready_for_options }) ∧
    (s.current_phase = .closing → s.advance_phase reason = s) := by
  have hnext : s.get_next_phase = specNextPhase s.current_phase := by
    cases hp : s.current_phase <;>
      simp only [PsychologistConversationState.get_next_phase, phaseOrder, hp,
        specNextPhase] <;> decide
  refine ⟨hnext, ?_, ?_⟩
  · intro p hp
    rw [hnext] at hp
    cases hc : s.current_phase <;> rw [hc] at hp <;>
      simp only [specNextPhase, Option.some.injEq,
        reduceCtorEq] at hp <;>
      subst hp <;>
      simp only [PsychologistConversationState.advance_phase, hnext, hc,
        specNextPhase] <;>
      rfl
  · intro hc
    rw [hc] at hnext
    simp only [PsychologistConversationState.advance_phase, hnext,
      specNextPhase]

/-- C2 witness: from the insight phase, `advance_phase` enters closing,
zeroes the in-phase counter and raises `ready_for_options`; in closing it
is the identity. -/
theorem advance_phase_steps_order_witness :
    (stInsight2.advance_phase "done" =
      { initialState with
          current_phase := .closing,
          phase_exchange_count := 0,
          transition_reason := some "done",
          ready_for_options := true }) ∧
    (stClosing.advance_phase "done" = stClosing) :=
  ⟨(advance_phase_steps_order stInsight2 "done").2.1 .closing (by decide),
   (advance_phase_steps_order stClosing "done").2.2 rfl⟩

/-- C3 as stated fails: the recency term of `compute_priority_score` is not
clamped above, so a thread whose `last_touched_exchange` exceeds the given
current exchange scores beyond 100 (here 103). -/
theorem compute_priority_score_counterexample :
    ({ id := "t1", topic := "x", type := .emotional,
       emotional_intensity := .critical, relevance_score := 1,
       exploration_depth := 0, first_mentioned_exchange := 1,
       last_touched_exchange := 1 } : Thread).compute_priority_score 0 = 103 ∧
    ¬ (({ id := "t1", topic := "x", type := .emotional,
          emotional_intensity := .critical, relevance_score := 1,
          exploration_depth := 0, first_mentioned_exchange := 1,
          last_touched_exchange := 1 } : Thread).compute_priority_score 0
        ≤ 100) := by
  constructor
  · simp only [Thread.compute_priority_score, intensityScore]
    norm_num
  · simp only [Thread.compute_priority_score, intensityScore]
    norm_num

/-- C3 amended: the score follows the stated weighted formula with the
intensity map low 20, medium 50, high 80, critical 100; it is deterministic
in its inputs; it stays within [0, 100] for every thread honouring the
model's field bounds provided the thread was not last touched after the
given current exchange; and the critical, fully-relevant, unexplored,
just-touched thread scores exactly the maximum 100. -/
theorem compute_priority_score_spec (t : Thread) (c : Int) :
    (t.compute_priority_score c =
      intensityScore t.emotional_intensity * (35/100) +
        (t.relevance_score * 100) * (30/100) +
        (max 0 (100 - (t.exploration_depth : Rat) * 40)) * (20/100) +
        (max 0 (100 - ((c - t.last_touched_exchange : Int) : Rat) * 20))
          * (15/100)) ∧
    (intensityScore .low = 20 ∧ intensityScore .medium = 50 ∧
      intensityScore .high = 80 ∧ intensityScore .critical = 100) ∧
    (∀ t2 c2, t = t2 → c = c2 →
      t.compute_priority_score c = t2.compute_priority_score c2) ∧
    (0 ≤ t.relevance_score → t.relevance_score ≤ 1 →
      0 ≤ t.exploration_depth → t.last_touched_exchange ≤ c →
      0 ≤ t.compute_priority_score c ∧ t.compute_priority_score c ≤ 100) ∧
    (t.emotional_intensity = .critical → t.relevance_score = 1 →
      t.exploration_depth = 0 → t.last_touched_exchange = c →
      t.compute_priority_score c = 100) := by
  refine ⟨rfl, ⟨rfl, rfl, rfl, rfl⟩, ?_, ?_, ?_⟩
  · intro t2 c2 ht hc
    rw [ht, hc]
  · intro hr0 hr1 hd0 hlt
    have hdq : (0 : Rat) ≤ (t.exploration_depth : Rat) := by
      exact_mod_cast hd0
    have hsq : (0 : Rat) ≤ ((c - t.last_touched_exchange : Int) : Rat) := by
      have : (0 : Int) ≤ c - t.last_touched_exchange := by omega
      exact_mod_cast this
    have hu0 : (0 : Rat) ≤ max 0 (100 - (t.exploration_depth : Rat) * 40) :=
      le_max_left _ _
    have hu1 : max 0 (100 - (t.exploration_depth : Rat) * 40) ≤ 100 := by
      apply max_le (by norm_num)
      nlinarith
    have hc0 : (0 : Rat) ≤
        max 0 (100 - ((c - t.last_touched_exchange : Int) : Rat) * 20) :=
      le_max_left _ _
    have hc1 : max 0 (100 - ((c - t.last_touched_exchange : Int) : Rat) * 20)
        ≤ 100 := by
      apply max_le (by norm_num)
      nlinarith
    have hi0 : (20 : Rat) ≤ intensityScore t.emotional_intensity := by
      cases t.emotional_intensity <;> simp [intensityScore] <;> norm_num
    have hi1 : intensityScore t.emotional_intensity ≤ 100 := by
      cases t.emotional_intensity <;> simp [intensityScore] <;> norm_num
    unfold Thread.compute_priority_score
    constructor <;> nlinarith
  · intro hi hr hd hl
    unfold Thread.compute_priority_score
    rw [hi, hr, hd, hl]
    simp [intensityScore]
    norm_num

/-- C3 amended witness: a concrete in-bounds thread touched before the
current exchange scores inside [0, 100], and the extremal thread scores
exactly 100. -/
theorem compute_priority_score_spec_witness :
    (0 ≤ ({ id := "t1", topic := "x", emotional_intensity := .medium,
            relevance_score := 1/2, exploration_depth := 1,
            last_touched_exchange := 2 } : Thread).compute_priority_score 4 ∧
      ({ id := "t1", topic := "x", emotional_intensity := .medium,
         relevance_score := 1/2, exploration_depth := 1,
         last_touched_exchange := 2 } : Thread).compute_priority_score 4
        ≤ 100) ∧
    ({ id := "t2", topic := "y", emotional_intensity := .critical,
       relevance_score := 1, exploration_depth := 0,
       last_touched_exchange := 5 } : Thread).compute_priority_score 5 = 100 :=
  ⟨(compute_priority_score_spec
      { id := "t1", topic := "x", emotional_intensity := .medium,
        relevance_score := 1/2, exploration_depth := 1,
        last_touched_exchange := 2 } 4).2.2.2.1
      (by norm_num) (by norm_num) (by norm_num) (by norm_num),
   (compute_priority_score_spec
      { id := "t2", topic := "y", emotional_intensity := .critical,
        relevance_score := 1, exploration_depth := 0,
        last_touched_exchange := 5 } 5).2.2.2.2 rfl rfl rfl rfl⟩

/-- C4: `needs_synthesis` holds exactly when at least three exchanges have
passed since the last synthesis. -/
theorem needs_synthesis_iff (s : PsychologistConversationState) :
    s.needs_synthesis = true ↔
      3 ≤ s.total_exchange_count - s.last_synthesis_exchange := by
  simp [PsychologistConversationState.needs_synthesis]

/-! ## Engine data (`psychologist_engine.py`) -/

/-- The apostrophe character, used inside the source's literal strings. -/
def apos : String := String.mk [Char.ofNat 39]

/-- The `.value` string of a `ResponseMove` member. -/
def ResponseMove.value : ResponseMove → String
  | .reflection => "reflection"
  | .observation => "observation"
  | .challenge => "challenge"
  | .deepening_question => "deepening_question"
  | .synthesis => "synthesis"
  | .insight => "insight"
  | .transition => "transition"

/-- An entry of `AIResponseModel.threads_detected`: the source reads these
dicts with `.get` defaults, modelled here as a structure with those
defaults. -/
structure ThreadDict where
  topic : String := ""
  type : ThreadType := .mentioned
  emotional_intensity : EmotionalIntensity := .medium
  relevance_score : Rat := 1/2
  supporting_quote : String := ""
deriving DecidableEq

/-- An entry of `AIResponseModel.observations_detected`, with the source's
`.get` defaults. -/
structure ObsDict where
  type : String := "pattern"
  text : String := ""
  confidence : Rat := 7/10
  supporting_quotes : List String := []
deriving DecidableEq

/-- `AIResponseModel`: the structured reply expected from the generation
collaborator. -/
structure AIResponseModel where
  response : String
  response_move : String
  threads_detected : List ThreadDict := []
  observations_detected : List ObsDict := []
  synthesis_points : List String := []
  core_issue : Option String := none
  should_transition : Bool := false
  transition_reason : Option String := none
  question_reason : Option String := none
  suggested_options : Option (List String) := none
deriving DecidableEq

/-- Uppercase a character list. -/
def upperL (l : List Char) : List Char := l.map upperChar

/-- `_parse_move`: uppercase, replace dashes with underscores, lowercase,
then read the enum value, defaulting to `deepening_question` on anything
unknown. -/
def parse_move (move_str : String) : ResponseMove :=
  let t := String.mk
    (lowerL ((upperL move_str.data).map (fun c => if c = '-' then '_' else c)))
  if t = "reflection" then .reflection
  else if t = "observation" then .observation
  else if t = "challenge" then .challenge
  else if t = "deepening_question" then .deepening_question
  else if t = "synthesis" then .synthesis
  else if t = "insight" then .insight
  else if t = "transition" then .transition
  else .deepening_question

/-- The `allowed_moves` table of `_is_move_allowed_in_phase`. -/
def allowedMoves : ConversationPhase → List ResponseMove
  | .opening => [.reflection, .deepening_question]
  | .exploration => [.reflection, .deepening_question, .observation]
  | .deepening =>
    [.reflection, .observation, .challenge, .synthesis, .deepening_question]
  | .insight => [.synthesis, .insight, .reflection]
  | .closing => [.synthesis, .transition, .insight]

/-- `_is_move_allowed_in_phase`. -/
def is_move_allowed_in_phase (move : ResponseMove)
    (phase : ConversationPhase) : Bool :=
  decide (move ∈ allowedMoves phase)

/-! ## Banned question patterns (`BANNED_QUESTION_PATTERNS`)

Each fixed regex of the source is paired with an executable matcher over
the already-lowercased text (the source searches with `re.IGNORECASE` on
`response.response.lower()`, so lowercase literals suffice). -/

/-- Matcher for `what (kind|type|category) of`. -/
def matchKindTypeCategory (text : List Char) : Bool :=
  hasSub ("what kind of").data text || hasSub ("what type of").data text ||
    hasSub ("what category of").data text

/-- Matcher for `would you prefer (A|B|C)`. -/
def matchWouldYouPrefer (text : List Char) : Bool :=
  hasSub ("would you prefer a").data text ||
    hasSub ("would you prefer b").data text ||
    hasSub ("would you prefer c").data text

/-- Matcher for `what new \w+ would you` at the head of the text: the
literal `what new `, a nonempty run of word characters, then
` would you`. -/
def matchWhatNewAt (l : List Char) : Bool :=
  leadsWith ("what new ").data l &&
    (let rest := l.drop 9
     let w := rest.takeWhile isWordChar
     !w.isEmpty && leadsWith (" would you").data (rest.drop w.length))

/-- Matcher for `what new \w+ would you` anywhere in the text. -/
def matchWhatNew : List Char → Bool
  | [] => false
  | c :: cs => matchWhatNewAt (c :: cs) || matchWhatNew cs

/-- `BANNED_QUESTION_PATTERNS`: the regex sources paired with their
matchers. -/
def BANNED_QUESTION_PATTERNS : List (String × (List Char → Bool)) :=
  [("what (kind|type|category) of", matchKindTypeCategory),
   ("would you prefer (A|B|C)", matchWouldYouPrefer),
   ("which of these", fun text => hasSub ("which of these").data text),
   ("what new \\w+ would you", matchWhatNew),
   ("^Understood\\.", fun text => leadsWith ("understood.").data text),
   ("^Got it\\.", fun text => leadsWith ("got it.").data text)]

/-- The `synthesis_indicators` list of `_validate_response`. -/
def synthesisIndicators : List (List Char) :=
  [("so far").data, ("understanding that").data,
   ("i" ++ apos ++ "m hearing").data, ("let me check").data,
   ("what i" ++ apos ++ "m getting").data, ("to summarize").data]

/-- The consecutive-question test of `_validate_response`: the last two
moves exist and are both deepening questions. -/
def lastTwoAllDQ (h : List ResponseMove) : Bool :=
  let recent := if 2 ≤ h.length then h.drop (h.length - 2) else []
  decide (2 ≤ recent.length) &&
    recent.all (fun m => decide (m = ResponseMove.deepening_question))

/-- `_validate_response`: the list of structural issues of a candidate
turn, in the source's check order. -/
def validate_response (response : AIResponseModel)
    (state : PsychologistConversationState) : List String :=
  let text := lowerL response.response.data
  (if leadsWith ("understood").data text then
    ["Starts with " ++ apos ++ "Understood" ++ apos ++ " (robotic)"] else [])
  ++ (if leadsWith ("got it").data text then
    ["Starts with " ++ apos ++ "Got it" ++ apos ++ " (robotic)"] else [])
  ++ (BANNED_QUESTION_PATTERNS.filter (fun pm => pm.2 text)).map
      (fun pm => "Contains banned pattern: " ++ pm.1)
  ++ (if 1 < countQ text then
    ["Contains " ++ toString (countQ text) ++ " questions (max 1)"] else [])
  ++ (if state.needs_synthesis &&
        !(synthesisIndicators.any (fun ind => hasSub ind text)) then
    ["Missing synthesis (required every 3 exchanges, last was " ++
      toString (state.total_exchange_count - state.last_synthesis_exchange) ++
      " ago)"] else [])
  ++ (if !(is_move_allowed_in_phase (parse_move response.response_move)
        state.current_phase) then
    ["Move " ++ (parse_move response.response_move).value ++
      " not appropriate for phase " ++ state.current_phase.value] else [])
  ++ (if decide (parse_move response.response_move =
          ResponseMove.deepening_question) &&
        lastTwoAllDQ state.move_history then
    ["Asked 2+ questions in a row without reflection/synthesis"] else [])

/-! ## Theorems for claim C7 -/

/-- A candidate turn for C7's counterexample: a question-mark-free
reflection that still contains the banned shallow pattern
`what (kind|type|category) of`. -/
def rC7 : AIResponseModel :=
  { response := "I hear that you are unsure what kind of work you want.",
    response_move := "reflection" }

/-- A structurally clean reflection turn, used as a witness input. -/
def rClean : AIResponseModel :=
  { response := "That sounds heavy.", response_move := "reflection" }

/-- A singleton-or-empty list is empty exactly when its condition fails. -/
theorem ite_singleton_eq_nil {α : Type} (c : Prop) [Decidable c] (x : α) :
    ((if c then [x] else []) = [] ↔ ¬ c) := by
  split <;> simp_all

/-- The length of a singleton-or-empty list as an indicator. -/
theorem ite_singleton_length {α : Type} (c : Prop) [Decidable c] (x : α) :
    (if c then [x] else [] : List α).length = (if c then 1 else 0) := by
  split <;> simp

/-- C7 as stated fails: a turn with zero question marks, a non-banned
opener, a move allowed in the phase, and no synthesis requirement can
still be flagged, because the banned shallow-question patterns are
searched in the whole text independently of question marks. -/
theorem validate_response_counterexample :
    countQ (lowerL rC7.response.data) = 0 ∧
    leadsWith ("understood").data (lowerL rC7.response.data) = false ∧
    leadsWith ("got it").data (lowerL rC7.response.data) = false ∧
    is_move_allowed_in_phase (parse_move rC7.response_move)
      initialState.current_phase = true ∧
    initialState.needs_synthesis = false ∧
    validate_response rC7 initialState ≠ [] := by decide

/-- C7 amended: the validator emits exactly one issue per violated rule
(its length is the sum of the per-rule indicators, the banned-pattern
rules counted one per matching pattern), and it emits zero issues exactly
when the text has no banned opener, matches no banned shallow-question
pattern, contains at most one question mark, carries a synthesis
indicator whenever synthesis is required, declares a move allowed in the
current phase, and is not a deepening question right after two deepening
questions. -/
theorem validate_response_spec (r : AIResponseModel)
    (s : PsychologistConversationState) :
    ((validate_response r s).length =
      (if leadsWith ("understood").data (lowerL r.response.data) then 1
        else 0) +
      (if leadsWith ("got it").data (lowerL r.response.data) then 1 else 0) +
      BANNED_QUESTION_PATTERNS.countP
        (fun pm => pm.2 (lowerL r.response.data)) +
      (if 1 < countQ (lowerL r.response.data) then 1 else 0) +
      (if s.needs_synthesis &&
          !(synthesisIndicators.any
            (fun ind => hasSub ind (lowerL r.response.data))) then 1
        else 0) +
      (if !(is_move_allowed_in_phase (parse_move r.response_move)
          s.current_phase) then 1 else 0) +
      (if decide (parse_move r.response_move =
            ResponseMove.deepening_question) &&
          lastTwoAllDQ s.move_history then 1 else 0)) ∧
    (validate_response r s = [] ↔
      (leadsWith ("understood").data (lowerL r.response.data) = false ∧
       leadsWith ("got it").data (lowerL r.response.data) = false ∧
       (∀ pm ∈ BANNED_QUESTION_PATTERNS,
         pm.2 (lowerL r.response.data) = false) ∧
       countQ (lowerL r.response.data) ≤ 1 ∧
       (s.needs_synthesis = true →
         synthesisIndicators.any
           (fun ind => hasSub ind (lowerL r.response.data)) = true) ∧
       is_move_allowed_in_phase (parse_move r.response_move)
         s.current_phase = true ∧
       ¬(parse_move r.response_move = ResponseMove.deepening_question ∧
         lastTwoAllDQ s.move_history = true))) := by
  constructor
  · simp only [validate_response, List.length_append, List.length_map,
      ite_singleton_length, ← List.countP_eq_length_filter]
  · simp only [validate_response, List.append_eq_nil, List.map_eq_nil_iff,
      List.filter_eq_nil_iff, ite_singleton_eq_nil, Bool.not_eq_true,
      Bool.and_eq_true, not_and, Bool.not_eq_true', Bool.not_eq_false,
      decide_eq_true_eq, not_lt, List.any_eq_true, not_exists]
    tauto

/-- C7 amended witness: a clean reflection in the opening phase produces
zero issues (the converse direction instantiated), and the counterexample
turn produces exactly one issue. -/
theorem validate_response_spec_witness :
    validate_response rClean initialState = [] ∧
    (validate_response rC7 initialState).length = 1 :=
  ⟨(validate_response_spec rClean initialState).2.mpr (by decide),
   by
    rw [(validate_response_spec rC7 initialState).1]
    decide⟩

/-! ## Mechanical fixes (`_apply_fixes`) -/

/-- Whether the accumulated (reversed) sentence so far ends in `.`, `?` or
`!`: the lookbehind `(?<=[.?!])` of the source's sentence split. -/
def endsSentencePunct : List Char → Bool
  | [] => false
  | c :: _ => c = '.' || c = '?' || c = '!'

mutual
/-- Walk for `re.split(r"(?<=[.?!])\s+", text)`: accumulate the current
sentence (reversed) until whitespace preceded by sentence punctuation. -/
def splitGo (acc : List Char) : List Char → List (List Char)
  | [] => [acc.reverse]
  | c :: cs =>
    if isPySpace c && endsSentencePunct acc then
      acc.reverse :: splitSkip cs
    else
      splitGo (c :: acc) cs

/-- Consume the rest of a whitespace run (`\s+` is greedy), then start the
next sentence. -/
def splitSkip : List Char → List (List Char)
  | [] => [[]]
  | c :: cs => if isPySpace c then splitSkip cs else splitGo [c] cs
end

/-- The sentence split `re.split(r"(?<=[.?!])\s+", text)` of the source. -/
def splitSentencesL (t : List Char) : List (List Char) := splitGo [] t

/-- Python `" ".join(parts)`. -/
def joinSpace : List (List Char) → List Char
  | [] => []
  | [s] => s
  | s :: rest => s ++ ' ' :: joinSpace rest

/-- The `Understood` opener fix of `_apply_fixes`: drop the prefix, strip,
then drop a leading `.` or `,`. -/
def stripOpenerUnderstood (t : List Char) : List Char :=
  if leadsWith ("understood").data (lowerL t) then
    let t := pyStrip (t.drop 10)
    let t := if leadsWith (".").data t then pyStrip (t.drop 1) else t
    if leadsWith (",").data t then pyStrip (t.drop 1) else t
  else t

/-- The `Got it` opener fix of `_apply_fixes`. -/
def stripOpenerGotIt (t : List Char) : List Char :=
  if leadsWith ("got it").data (lowerL t) then
    let t := pyStrip (t.drop 6)
    if leadsWith (".").data t then pyStrip (t.drop 1) else t
  else t

/-- The multiple-question fix of `_apply_fixes`: when the text holds more
than one question mark, keep the non-question sentences and only the last
question sentence — provided both kinds exist. -/
def fixQuestions (t : List Char) : List Char :=
  if 1 < countQ t then
    let sentences := splitSentencesL t
    let questions := sentences.filter (fun sent => decide (qm ∈ sent))
    let non_questions := sentences.filter (fun sent => decide (qm ∉ sent))
    if !questions.isEmpty && !non_questions.isEmpty then
      joinSpace non_questions ++ ' ' :: questions.getLastD []
    else t
  else t

/-- `_apply_fixes`: best-effort mechanical fixes applied when regeneration
attempts are exhausted (the `issues` and `state` arguments are accepted
but unused, as in the source). -/
def apply_fixes (response : AIResponseModel) (issues : List String)
    (state : PsychologistConversationState) : AIResponseModel :=
  let text := response.response.data
  let text := stripOpenerUnderstood text
  let text := stripOpenerGotIt text
  let text := fixQuestions text
  { response with response := String.mk text }

/-! ## Counting lemmas for the question fix -/

/-- Python whitespace is never a question mark. -/
theorem isPySpace_ne_qm {c : Char} (h : isPySpace c = true) : c ≠ qm := by
  revert h
  simp only [isPySpace, qm]
  rintro h rfl
  revert h
  decide

/-- `countQ` of the empty list. -/
theorem countQ_nil : countQ [] = 0 := rfl

/-- `countQ` across a cons. -/
theorem countQ_cons (c : Char) (l : List Char) :
    countQ (c :: l) = countQ l + (if c = qm then 1 else 0) := by
  simp only [countQ, List.count_cons]
  split <;> simp_all

/-- `countQ` across an append. -/
theorem countQ_append (a b : List Char) :
    countQ (a ++ b) = countQ a + countQ b := by
  simp [countQ, List.count_append]

/-- `countQ` is reversal-invariant. -/
theorem countQ_reverse (l : List Char) : countQ l.reverse = countQ l := by
  simp [countQ, List.count_reverse]

/-- The sentence split only discards whitespace, so it preserves the total
question-mark count (joint statement for both walkers). -/
theorem split_countQ_sum (l : List Char) :
    (∀ acc, ((splitGo acc l).map countQ).sum = countQ acc + countQ l) ∧
    ((splitSkip l).map countQ).sum = countQ l := by
  induction l with
  | nil => simp [splitGo, splitSkip, countQ]
  | cons c cs ih =>
    constructor
    · intro acc
      rw [splitGo]
      split
      · next hc =>
        have hsp : isPySpace c = true := by
          rw [Bool.and_eq_true] at hc
          exact hc.1
        have hcq : c ≠ qm := isPySpace_ne_qm hsp
        rw [List.map_cons, List.sum_cons, ih.2, countQ_reverse,
          countQ_cons, if_neg hcq]
        omega
      · rw [(ih.1 (c :: acc)), countQ_cons, countQ_cons]
        omega
    · rw [splitSkip]
      split
      · next hc =>
        have hcq : c ≠ qm := isPySpace_ne_qm hc
        rw [ih.2, countQ_cons, if_neg hcq]
        omega
      · rw [(ih.1 [c]), countQ_cons, countQ_cons, countQ_nil]
        omega

/-- `joinSpace` preserves the total question-mark count: the separator
holds none. -/
theorem joinSpace_countQ (L : List (List Char)) :
    countQ (joinSpace L) = (L.map countQ).sum := by
  induction L with
  | nil => simp [joinSpace, countQ]
  | cons s rest ih =>
    cases rest with
    | nil => simp [joinSpace, countQ]
    | cons s2 rest2 =>
      have hstep : joinSpace (s :: s2 :: rest2) =
          s ++ ' ' :: joinSpace (s2 :: rest2) := rfl
      rw [hstep, countQ_append, countQ_cons, ih]
      have hsp : (' ' : Char) ≠ qm := by decide
      rw [if_neg hsp]
      simp [List.map_cons, List.sum_cons]
      try omega

/-- Dropping a prefix or stripping whitespace never adds question marks. -/
theorem countQ_pyStrip_le (l : List Char) : countQ (pyStrip l) ≤ countQ l := by
  unfold pyStrip countQ
  calc ((l.dropWhile isPySpace).reverse.dropWhile isPySpace).reverse.count qm
      = ((l.dropWhile isPySpace).reverse.dropWhile isPySpace).count qm := by
        rw [List.count_reverse]
    _ ≤ (l.dropWhile isPySpace).reverse.count qm :=
        (List.dropWhile_sublist _).count_le _
    _ = (l.dropWhile isPySpace).count qm := by rw [List.count_reverse]
    _ ≤ l.count qm := (List.dropWhile_sublist _).count_le _

/-- `countQ` never grows under a drop. -/
theorem countQ_drop_le (l : List Char) (n : Nat) :
    countQ (l.drop n) ≤ countQ l :=
  (List.drop_sublist n l).count_le qm

/-- The conditional leading-punctuation strip of `_apply_fixes` never adds
question marks. -/
theorem countQ_punct_if_le (c : List Char) (t : List Char) :
    countQ (if leadsWith c t then pyStrip (t.drop 1) else t) ≤ countQ t := by
  split
  · exact le_trans (countQ_pyStrip_le _) (countQ_drop_le _ _)
  · exact le_rfl

/-- The `Understood` opener strip never adds question marks. -/
theorem countQ_stripOpenerUnderstood_le (u : List Char) :
    countQ (stripOpenerUnderstood u) ≤ countQ u := by
  unfold stripOpenerUnderstood
  split
  · exact le_trans (countQ_punct_if_le _ _)
      (le_trans (countQ_punct_if_le _ _)
        (le_trans (countQ_pyStrip_le _) (countQ_drop_le _ _)))
  · exact le_rfl

/-- The `Got it` opener strip never adds question marks. -/
theorem countQ_stripOpenerGotIt_le (u : List Char) :
    countQ (stripOpenerGotIt u) ≤ countQ u := by
  unfold stripOpenerGotIt
  split
  · exact le_trans (countQ_punct_if_le _ _)
      (le_trans (countQ_pyStrip_le _) (countQ_drop_le _ _))
  · exact le_rfl

/-! ## Theorems for claim C5 -/

/-- Members of the non-question filter hold no question mark. -/
theorem countQ_eq_zero_of_mem_nonq {sent : List Char}
    {sentences : List (List Char)}
    (h : sent ∈ sentences.filter (fun x => decide (qm ∉ x))) :
    countQ sent = 0 := by
  have := List.of_mem_filter h
  simp only [decide_eq_true_eq] at this
  exact List.count_eq_zero.mpr this

/-- `getLastD` of a nonempty list is a member. -/
theorem getLastD_mem {α : Type} (l : List α) (d : α) (h : l ≠ []) :
    l.getLastD d ∈ l := by
  induction l generalizing d with
  | nil => exact absurd rfl h
  | cons a t ih =>
    rw [List.getLastD_cons]
    cases t with
    | nil => simp [List.getLastD]
    | cons b t2 =>
      exact List.mem_cons_of_mem a (ih b (by simp))

/-- The question fix never increases the question-mark count, and it
leaves at most one question mark whenever no sentence of the split holds
two of them and some sentence holds none. -/
theorem fixQuestions_countQ (t : List Char) :
    countQ (fixQuestions t) ≤ countQ t ∧
    ((∀ sent ∈ splitSentencesL t, countQ sent ≤ 1) →
     (∃ sent ∈ splitSentencesL t, countQ sent = 0) →
     countQ (fixQuestions t) ≤ 1) := by
  have hsum : ((splitSentencesL t).map countQ).sum = countQ t := by
    have := (split_countQ_sum t).1 []
    simpa [splitSentencesL, countQ_nil] using this
  unfold fixQuestions
  by_cases h1 : 1 < countQ t
  · rw [if_pos h1]
    set sentences := splitSentencesL t with hsent
    set qs := sentences.filter (fun sent => decide (qm ∈ sent)) with hqs
    set nqs := sentences.filter (fun sent => decide (qm ∉ sent)) with hnqs
    by_cases h2 : (!qs.isEmpty && !nqs.isEmpty) = true
    · rw [if_pos h2]
      have hqne : qs ≠ [] := by
        rw [Bool.and_eq_true] at h2
        simpa [List.isEmpty_iff] using h2.1
      have hlastmem : qs.getLastD [] ∈ qs := getLastD_mem qs [] hqne
      have hlastsent : qs.getLastD [] ∈ sentences := List.mem_of_mem_filter hlastmem
      have hnq0 : (nqs.map countQ).sum = 0 := by
        rw [List.sum_eq_zero_iff]
        intro x hx
        rcases List.mem_map.mp hx with ⟨sent, hs, rfl⟩
        exact countQ_eq_zero_of_mem_nonq hs
      have hcount : countQ (joinSpace nqs ++ ' ' :: qs.getLastD []) =
          countQ (qs.getLastD []) := by
        rw [countQ_append, countQ_cons, joinSpace_countQ, hnq0]
        norm_num
        decide
      constructor
      · rw [hcount, ← hsum]
        exact List.single_le_sum (by intro x _; omega) _
          (List.mem_map.mpr ⟨_, hlastsent, rfl⟩)
      · intro hall _
        rw [hcount]
        exact hall _ hlastsent
    · rw [if_neg h2]
      refine ⟨le_rfl, ?_⟩
      intro hall hex
      rcases hex with ⟨sent0, hs0, hc0⟩
      have hs0n : sent0 ∈ nqs := by
        rw [hnqs]
        refine List.mem_filter.mpr ⟨hs0, ?_⟩
        have hcnt : List.count qm sent0 = 0 := hc0
        simpa using List.count_eq_zero.mp hcnt
      have hnqne : nqs ≠ [] := List.ne_nil_of_mem hs0n
      have hqe : qs = [] := by
        by_contra hbad
        apply h2
        rw [Bool.and_eq_true]
        constructor <;> simp [List.isEmpty_iff]
        · exact hbad
        · exact hnqne
      have hall0 : ∀ sent ∈ sentences, countQ sent = 0 := by
        intro sent hs
        by_contra hbad
        have hqm : qm ∈ sent := by
          have hcnt : List.count qm sent ≠ 0 := hbad
          rw [← List.count_pos_iff]
          omega
        have : sent ∈ qs := by
          rw [hqs]
          exact List.mem_filter.mpr ⟨hs, by simpa using hqm⟩
        rw [hqe] at this
        cases this
      have : countQ t = 0 := by
        rw [← hsum, List.sum_eq_zero_iff]
        intro x hx
        rcases List.mem_map.mp hx with ⟨sent, hs, rfl⟩
        exact hall0 sent hs
      omega
  · rw [if_neg h1]
    exact ⟨le_rfl, fun _ _ => by omega⟩

/-- Without the `Understood` prefix the first opener fix does nothing. -/
theorem stripOpenerUnderstood_id (t : List Char)
    (h : leadsWith ("understood").data (lowerL t) = false) :
    stripOpenerUnderstood t = t := by
  unfold stripOpenerUnderstood
  rw [if_neg (by simp [h])]

/-- Without the `Got it` prefix the second opener fix does nothing. -/
theorem stripOpenerGotIt_id (t : List Char)
    (h : leadsWith ("got it").data (lowerL t) = false) :
    stripOpenerGotIt t = t := by
  unfold stripOpenerGotIt
  rw [if_neg (by simp [h])]

/-- With at most one question mark the question fix does nothing. -/
theorem fixQuestions_id (t : List Char) (h : countQ t ≤ 1) :
    fixQuestions t = t := by
  unfold fixQuestions
  rw [if_neg (by omega)]

/-- A text whose sentences are all questions, used as C5's counterexample:
`_apply_fixes` leaves both question marks and the banned shallow pattern
in place. -/
def rC5 : AIResponseModel :=
  { response := "What kind of pet would suit you? What type of home do you have?",
    response_move := "deepening_question" }

/-- C5 as stated fails: when every sentence of the split contains a
question mark, the multiple-question fix is skipped, so the emitted turn
keeps two question marks — and the banned shallow-question pattern
`what (kind|type|category) of` is present and uncorrected, since
`_apply_fixes` never rewrites those patterns. -/
theorem apply_fixes_counterexample :
    countQ ((apply_fixes rC5 [] initialState).response.data) = 2 ∧
    matchKindTypeCategory
      (lowerL ((apply_fixes rC5 [] initialState).response.data)) = true := by
  decide

/-- C5 amended: the mechanical fixes never increase the question-mark
count; they reduce it to at most one whenever, after opener stripping, no
sentence of the split holds two question marks and at least one sentence
holds none; and a text with no banned opener prefix and at most one
question mark is returned verbatim — in particular banned
shallow-question patterns are never corrected by `_apply_fixes`. -/
theorem apply_fixes_spec (r : AIResponseModel) (issues : List String)
    (s : PsychologistConversationState) :
    (countQ ((apply_fixes r issues s).response.data) ≤
      countQ r.response.data) ∧
    ((∀ sent ∈ splitSentencesL
        (stripOpenerGotIt (stripOpenerUnderstood r.response.data)),
        countQ sent ≤ 1) →
     (∃ sent ∈ splitSentencesL
        (stripOpenerGotIt (stripOpenerUnderstood r.response.data)),
        countQ sent = 0) →
     countQ ((apply_fixes r issues s).response.data) ≤ 1) ∧
    (leadsWith ("understood").data (lowerL r.response.data) = false →
     leadsWith ("got it").data (lowerL r.response.data) = false →
     countQ r.response.data ≤ 1 →
     (apply_fixes r issues s).response = r.response) := by
  refine ⟨?_, ?_, ?_⟩
  · show countQ (fixQuestions
        (stripOpenerGotIt (stripOpenerUnderstood r.response.data))) ≤ _
    exact le_trans (fixQuestions_countQ _).1
      (le_trans (countQ_stripOpenerGotIt_le _)
        (countQ_stripOpenerUnderstood_le _))
  · intro hall hex
    exact (fixQuestions_countQ _).2 hall hex
  · intro h1 h2 h3
    show String.mk (fixQuestions
      (stripOpenerGotIt (stripOpenerUnderstood r.response.data))) = _
    rw [stripOpenerUnderstood_id _ h1, stripOpenerGotIt_id _ h2,
      fixQuestions_id _ h3]

/-- A two-sentence text with one question, used as a C5 witness input. -/
def rFix : AIResponseModel :=
  { response := "Why do you stay? It seems hard.",
    response_move := "deepening_question" }

/-- C5 amended witness: on a turn whose split has a question-free sentence
the fixes leave at most one question mark, and a clean turn passes through
unchanged. -/
theorem apply_fixes_spec_witness :
    countQ ((apply_fixes rFix [] initialState).response.data) ≤ 1 ∧
    (apply_fixes rClean [] initialState).response = rClean.response :=
  ⟨(apply_fixes_spec rFix [] initialState).2.1 (by decide) (by decide),
   (apply_fixes_spec rClean [] initialState).2.2 (by decide) (by decide)
     (by decide)⟩

/-! ## Correction prompt and the bounded regeneration loop -/

/-- Python `sep.join(parts)`. -/
def strJoin (sep : String) : List String → String
  | [] => ""
  | [s] => s
  | s :: rest => s ++ sep ++ strJoin sep rest

/-- `_build_correction_prompt`: one human-readable instruction per issue,
chosen by keyword, in the source's elif order. -/
def build_correction_prompt (issues : List String) : String :=
  let corrections := issues.filterMap (fun issue =>
    if hasSub ("Understood").data issue.data ||
        hasSub ("Got it").data issue.data then
      some ("DO NOT start with " ++ apos ++ "Understood" ++ apos ++ " or " ++
        apos ++ "Got it" ++ apos ++ " - be more natural")
    else if hasSub ("banned pattern").data issue.data then
      some ("DO NOT ask " ++ apos ++ "What type/kind of X?" ++ apos ++
        " - ask deeper questions like " ++ apos ++
        "What would that look like?" ++ apos ++ " or " ++ apos ++
        "Tell me about a time when..." ++ apos)
    else if hasSub ("questions").data issue.data then
      some "Ask only ONE question per response. Choose the most important one."
    else if hasSub ("synthesis").data issue.data then
      some ("You MUST include a synthesis statement. Start with something like " ++
        apos ++ "So far I" ++ apos ++ "m understanding that..." ++ apos ++
        " before asking anything new.")
    else if hasSub ("Move").data issue.data then
      some ("Use a different response move that" ++ apos ++
        "s appropriate for the current phase.")
    else none)
  "## CORRECTIONS REQUIRED\n" ++
    strJoin "\n" (corrections.map (fun c => "- " ++ c))

/-- Failure of the AI generation collaborator (network, parse or schema
error): the engine has no handler for it, so it propagates. -/
inductive GenFailure where
  | failure
deriving DecidableEq

/-- `PsychologistEngine.MAX_REGEN_ATTEMPTS`. -/
def MAX_REGEN_ATTEMPTS : Nat := 2

/-- The loop of `_generate_validated_response` over
`range(MAX_REGEN_ATTEMPTS + 1)`. The generation collaborator is the
oracle `gen`, indexed by the prompt and the attempt number; the second
component counts generation calls made. `remaining` is the number of loop
iterations left (the source's range is never empty, so the zero case is
the unbound-variable error a real empty range would raise). -/
def generate_validated_response_aux
    (gen : String → Nat → Except GenFailure AIResponseModel)
    (state : PsychologistConversationState) :
    String → Nat → Nat → Nat →
      (Except GenFailure AIResponseModel) × Nat
  | _, _, calls, 0 => (Except.error GenFailure.failure, calls)
  | prompt, attempt, calls, r + 1 =>
    match gen prompt attempt with
    | .error e => (.error e, calls + 1)
    | .ok response =>
      let issues := validate_response response state
      if issues.isEmpty then (.ok response, calls + 1)
      else if r = 0 then
        (.ok (apply_fixes response issues state), calls + 1)
      else
        generate_validated_response_aux gen state
          (prompt ++ "\n\n" ++ build_correction_prompt issues)
          (attempt + 1) (calls + 1) r

/-- `_generate_validated_response`: generate, validate, regenerate at most
`MAX_REGEN_ATTEMPTS` times, mechanically fixing the final attempt. -/
def generate_validated_response
    (gen : String → Nat → Except GenFailure AIResponseModel)
    (system_prompt : String) (state : PsychologistConversationState) :
    (Except GenFailure AIResponseModel) × Nat :=
  generate_validated_response_aux gen state system_prompt 0 0
    (MAX_REGEN_ATTEMPTS + 1)

/-- The loop makes at most `calls + remaining` generation calls. -/
theorem generate_validated_response_aux_bound
    (gen : String → Nat → Except GenFailure AIResponseModel)
    (s : PsychologistConversationState) :
    ∀ (remaining : Nat) (prompt : String) (attempt calls : Nat),
      (generate_validated_response_aux gen s prompt attempt calls
        remaining).2 ≤ calls + remaining := by
  intro remaining
  induction remaining with
  | zero =>
    intro prompt attempt calls
    simp [generate_validated_response_aux]
  | succ r ih =>
    intro prompt attempt calls
    rw [generate_validated_response_aux]
    cases hg : gen prompt attempt with
    | error e => simp
    | ok response =>
      simp only []
      split
      · simp
      · split
        · simp
        · exact le_trans (ih _ _ _) (by omega)

/-- C9: the generate-validate-regenerate loop is a total function that
performs at most `MAX_REGEN_ATTEMPTS + 1 = 3` generation calls per turn,
whatever the oracle returns. -/
theorem generate_validated_response_call_bound
    (gen : String → Nat → Except GenFailure AIResponseModel)
    (prompt : String) (s : PsychologistConversationState) :
    (generate_validated_response gen prompt s).2 ≤ 3 ∧
      MAX_REGEN_ATTEMPTS = 2 :=
  ⟨generate_validated_response_aux_bound gen s (MAX_REGEN_ATTEMPTS + 1)
    prompt 0 0, rfl⟩

/-! ## Pattern detector data (`pattern_detector.py`) and state merging -/

/-- `DetectedThread`: a candidate thread from message analysis. -/
structure DetectedThread where
  topic : String
  type : ThreadType
  emotional_intensity : EmotionalIntensity
  relevance_score : Rat
  quote : String
deriving DecidableEq

/-- `DetectedObservation`: a candidate observation from message analysis. -/
structure DetectedObservation where
  type : String
  text : String
  confidence : Rat
  supporting_quotes : List String
deriving DecidableEq

/-- `PatternAnalysisResult`: the detector's output; the depth-update dict
is modelled as an association list in iteration order. -/
structure PatternAnalysisResult where
  new_threads : List DetectedThread := []
  new_observations : List DetectedObservation := []
  updated_thread_depths : List (String × Int) := []
  dominant_emotion : Option String := none
deriving DecidableEq

/-- `create_thread_from_detected`; the source draws a fresh uuid-based id,
modelled as the explicit `fresh_id` argument. -/
def create_thread_from_detected (detected : DetectedThread)
    (exchange_num : Int) (fresh_id : String) : Thread :=
  { id := fresh_id,
    topic := detected.topic,
    type := detected.type,
    emotional_intensity := detected.emotional_intensity,
    relevance_score := detected.relevance_score,
    exploration_depth := 0,
    first_mentioned_exchange := exchange_num,
    last_touched_exchange := exchange_num,
    related_quotes := if detected.quote ≠ "" then [detected.quote] else [] }

/-- `create_observation_from_detected`, with the uuid-based id as an
explicit argument. -/
def create_observation_from_detected (detected : DetectedObservation)
    (fresh_id : String) : Observation :=
  { id := fresh_id,
    type := detected.type,
    text := detected.text,
    confidence := detected.confidence,
    supporting_quotes := detected.supporting_quotes,
    surfaced := false }

/-- Split into whitespace-separated words (Python `str.split()`), word
accumulated in reverse. -/
def splitWsAux (cur : List Char) : List Char → List (List Char)
  | [] => if cur.isEmpty then [] else [cur.reverse]
  | c :: cs =>
    if isPySpace c then
      if cur.isEmpty then splitWsAux [] cs else cur.reverse :: splitWsAux [] cs
    else
      splitWsAux (c :: cur) cs

/-- Python `str.split()` on a character list. -/
def splitWs (l : List Char) : List (List Char) := splitWsAux [] l

/-- `PatternDetector._is_duplicate_thread`: same lowercased topic, or more
than half of the candidate's distinct topic words shared with an existing
candidate. -/
def is_duplicate_thread (thread : DetectedThread)
    (existing : List DetectedThread) : Bool :=
  existing.any (fun e =>
    decide (lowerS thread.topic = lowerS e.topic) ||
      decide (((((splitWs (lowerS thread.topic).data).dedup.filter
          (fun w => w ∈ (splitWs (lowerS e.topic).data).dedup)).length : Rat)) >
        ((splitWs (lowerS thread.topic).data).dedup.length : Rat) * (1/2)))

/-- The thread-append loop of `_update_state_with_patterns`: a detected
thread is added only when its lowercased topic is absent from the current
(growing) list; `ids` supplies the uuid-based ids. -/
def addDetectedThreads (total : Int) (ids : Nat → String) :
    List Thread → List DetectedThread → Nat → List Thread
  | threads, [], _ => threads
  | threads, d :: rest, k =>
    if lowerS d.topic ∈ threads.map (fun t => lowerS t.topic) then
      addDetectedThreads total ids threads rest k
    else
      addDetectedThreads total ids
        (threads ++ [create_thread_from_detected d total (ids k)]) rest (k + 1)

/-- The depth-update loop of `_update_state_with_patterns`: every thread
with a matching id receives the new depth and last-touched exchange. -/
def applyDepthUpdates (total : Int) (threads : List Thread)
    (updates : List (String × Int)) : List Thread :=
  updates.foldl (fun ths u =>
    ths.map (fun t =>
      if t.id = u.1 then
        { t with exploration_depth := u.2, last_touched_exchange := total }
      else t)) threads

/-- The observation-append loop of `_update_state_with_patterns`. -/
def addDetectedObs (ids : Nat → String) :
    List Observation → List DetectedObservation → Nat → List Observation
  | obs, [], _ => obs
  | obs, d :: rest, k =>
    if lowerS d.text ∈ obs.map (fun o => lowerS o.text) then
      addDetectedObs ids obs rest k
    else
      addDetectedObs ids
        (obs ++ [create_observation_from_detected d (ids k)]) rest (k + 1)

/-- `_update_state_with_patterns`: merge the detector's output into the
state (thread appends, depth updates, observation appends, dominant
emotion — which Python skips for a falsy empty string). -/
def update_state_with_patterns (thread_ids obs_ids : Nat → String)
    (state : PsychologistConversationState)
    (pattern_result : PatternAnalysisResult) :
    PsychologistConversationState :=
  let state := { state with
    active_threads := addDetectedThreads state.total_exchange_count
      thread_ids state.active_threads pattern_result.new_threads 0 }
  let state := { state with
    active_threads := applyDepthUpdates state.total_exchange_count
      state.active_threads pattern_result.updated_thread_depths }
  let state := { state with
    observations := addDetectedObs obs_ids state.observations
      pattern_result.new_observations 0 }
  match pattern_result.dominant_emotion with
  | some e => if e ≠ "" then { state with dominant_emotion := some e } else state
  | none => state

/-! ## Theorems for claim C8 -/

/-- No two threads share a lowercased topic. -/
def no_dup_topics (l : List Thread) : Prop :=
  l.Pairwise (fun a b => lowerS a.topic ≠ lowerS b.topic)

/-- No two observations share a lowercased text. -/
def no_dup_obs_texts (l : List Observation) : Prop :=
  l.Pairwise (fun a b => lowerS a.text ≠ lowerS b.text)

/-- The thread-append loop preserves topic distinctness. -/
theorem addDetectedThreads_no_dup (total : Int) (ids : Nat → String) :
    ∀ (ds : List DetectedThread) (threads : List Thread) (k : Nat),
      no_dup_topics threads →
      no_dup_topics (addDetectedThreads total ids threads ds k) := by
  intro ds
  induction ds with
  | nil => intro threads k h; exact h
  | cons d rest ih =>
    intro threads k h
    rw [addDetectedThreads]
    split
    · exact ih threads k h
    · next hnot =>
      refine ih _ (k + 1) ?_
      unfold no_dup_topics
      rw [List.pairwise_append]
      refine ⟨h, List.pairwise_singleton _ _, ?_⟩
      intro a ha b hb
      rw [List.mem_singleton] at hb
      subst hb
      intro hbad
      have hbad2 : lowerS a.topic = lowerS d.topic := hbad
      exact hnot (List.mem_map.mpr ⟨a, ha, hbad2⟩)

/-- The depth-update loop never changes topics, so distinctness survives. -/
theorem applyDepthUpdates_no_dup (total : Int)
    (updates : List (String × Int)) :
    ∀ threads, no_dup_topics threads →
      no_dup_topics (applyDepthUpdates total threads updates) := by
  unfold applyDepthUpdates
  induction updates with
  | nil => intro threads h; exact h
  | cons u rest ih =>
    intro threads h
    rw [List.foldl_cons]
    refine ih _ ?_
    unfold no_dup_topics at h ⊢
    refine List.Pairwise.map _ ?_ h
    intro a b hab
    split <;> split <;> exact hab

/-- The observation-append loop preserves text distinctness. -/
theorem addDetectedObs_no_dup (ids : Nat → String) :
    ∀ (ds : List DetectedObservation) (obs : List Observation) (k : Nat),
      no_dup_obs_texts obs →
      no_dup_obs_texts (addDetectedObs ids obs ds k) := by
  intro ds
  induction ds with
  | nil => intro obs k h; exact h
  | cons d rest ih =>
    intro obs k h
    rw [addDetectedObs]
    split
    · exact ih obs k h
    · next hnot =>
      refine ih _ (k + 1) ?_
      unfold no_dup_obs_texts
      rw [List.pairwise_append]
      refine ⟨h, List.pairwise_singleton _ _, ?_⟩
      intro a ha b hb
      rw [List.mem_singleton] at hb
      subst hb
      intro hbad
      have hbad2 : lowerS a.text = lowerS d.text := hbad
      exact hnot (List.mem_map.mpr ⟨a, ha, hbad2⟩)

/-- An existing thread about feeling stuck. -/
def thrStuck : Thread :=
  { id := "t1", topic := "feeling stuck", type := .emotional,
    emotional_intensity := .high, relevance_score := 7/10,
    exploration_depth := 0, first_mentioned_exchange := 1,
    last_touched_exchange := 1 }

/-- The same topic as a detected candidate, for the overlap test. -/
def dStuck : DetectedThread :=
  { topic := "feeling stuck", type := .emotional,
    emotional_intensity := .high, relevance_score := 7/10, quote := "" }

/-- A detected thread overlapping `thrStuck`'s topic by two of its three
words — a duplicate under the detector's 50% rule, but not an exact
lowercased match. -/
def dStuckToday : DetectedThread :=
  { topic := "feeling stuck today", type := .emotional,
    emotional_intensity := .high, relevance_score := 7/10, quote := "" }

/-- State already holding the feeling-stuck thread. -/
def sC8 : PsychologistConversationState :=
  { initialState with active_threads := [thrStuck], total_exchange_count := 1 }

/-- Detector output carrying the overlapping candidate. -/
def pC8 : PatternAnalysisResult := { new_threads := [dStuckToday] }

/-- C8 as stated fails: the merge into the state deduplicates threads only
by exact lowercased topic, so a candidate with 2/3 word overlap against an
existing thread (a duplicate under `_is_duplicate_thread`'s 50% rule) is
still appended a second time to `active_threads`. -/
theorem update_state_with_patterns_counterexample :
    is_duplicate_thread dStuckToday [dStuck] = true ∧
    sC8.active_threads.length = 1 ∧
    (update_state_with_patterns (fun _ => "t2") (fun _ => "o1") sC8
      pC8).active_threads.length = 2 := by
  refine ⟨?_, by decide, by decide⟩
  unfold is_duplicate_thread
  apply List.any_eq_true.mpr
  refine ⟨dStuck, List.mem_singleton.mpr rfl, ?_⟩
  rw [Bool.or_eq_true]
  right
  rw [decide_eq_true_eq]
  have h2 : ((splitWs (lowerS dStuckToday.topic).data).dedup.filter
      (fun w => w ∈ (splitWs (lowerS dStuck.topic).data).dedup)).length = 2 := by
    decide
  have h3 : (splitWs (lowerS dStuckToday.topic).data).dedup.length = 3 := by
    decide
  rw [h2, h3]
  norm_num

/-- C8 amended: the state merge of `_update_state_with_patterns`
deduplicates threads by exact lowercased topic and observations by exact
lowercased text (so neither kind is ever added twice under that notion,
and the distinctness invariants are preserved); the 50% word-overlap rule
belongs to the detector's own batch merging, not the state merge. -/
theorem update_state_with_patterns_dedup (thread_ids obs_ids : Nat → String)
    (s : PsychologistConversationState) (p : PatternAnalysisResult) :
    (no_dup_topics s.active_threads →
      no_dup_topics
        (update_state_with_patterns thread_ids obs_ids s p).active_threads) ∧
    (no_dup_obs_texts s.observations →
      no_dup_obs_texts
        (update_state_with_patterns thread_ids obs_ids s p).observations) := by
  unfold update_state_with_patterns
  constructor
  · intro h
    have h1 := addDetectedThreads_no_dup s.total_exchange_count thread_ids
      p.new_threads s.active_threads 0 h
    have h2 := applyDepthUpdates_no_dup s.total_exchange_count
      p.updated_thread_depths _ h1
    cases hp : p.dominant_emotion <;> simp only [hp] <;>
      first
      | exact h2
      | (split <;> exact h2)
  · intro h
    have h1 := addDetectedObs_no_dup obs_ids p.new_observations
      s.observations 0 h
    cases hp : p.dominant_emotion <;> simp only [hp] <;>
      first
      | exact h1
      | (split <;> exact h1)

/-- C8 amended witness: merging the exact-duplicate candidate into `sC8`
adds nothing, and distinctness is preserved on a concrete two-thread
state. -/
theorem update_state_with_patterns_dedup_witness :
    no_dup_topics (update_state_with_patterns (fun _ => "t2") (fun _ => "o1")
      sC8 { new_threads := [dStuck] }).active_threads ∧
    (update_state_with_patterns (fun _ => "t2") (fun _ => "o1") sC8
      { new_threads := [dStuck] }).active_threads.length = 1 :=
  ⟨(update_state_with_patterns_dedup (fun _ => "t2") (fun _ => "o1") sC8
      { new_threads := [dStuck] }).1
      (by simp [no_dup_topics, sC8, List.pairwise_singleton]),
   by decide⟩

/-! ## Folding the generated response back into state
(`_update_state_from_response`) -/

/-- The synthesis-point append loop: points are appended in order, each
skipped when already present. -/
def appendSynthesisPoints (existing : List String) (pts : List String) :
    List String :=
  pts.foldl (fun acc pt => if pt ∈ acc then acc else acc ++ [pt]) existing

/-- The response-thread append loop of `_update_state_from_response`:
deduplication by exact lowercased topic, ids derived from the running
list length. -/
def appendResponseThreads (total : Int) :
    List Thread → List ThreadDict → List Thread
  | threads, [] => threads
  | threads, td :: rest =>
    if lowerS td.topic ∈ threads.map (fun t => lowerS t.topic) then
      appendResponseThreads total threads rest
    else
      appendResponseThreads total
        (threads ++
          [{ id := "t" ++ toString (threads.length + 1),
             topic := td.topic,
             type := td.type,
             emotional_intensity := td.emotional_intensity,
             relevance_score := td.relevance_score,
             exploration_depth := 0,
             first_mentioned_exchange := total,
             last_touched_exchange := total,
             related_quotes := [td.supporting_quote] }]) rest

/-- The response-observation append loop of `_update_state_from_response`:
deduplication by exact lowercased text; new observations start
unsurfaced. -/
def appendResponseObs :
    List Observation → List ObsDict → List Observation
  | obs, [] => obs
  | obs, od :: rest =>
    if lowerS od.text ∈ obs.map (fun o => lowerS o.text) then
      appendResponseObs obs rest
    else
      appendResponseObs
        (obs ++
          [{ id := "o" ++ toString (obs.length + 1),
             type := od.type,
             text := od.text,
             confidence := od.confidence,
             supporting_quotes := od.supporting_quotes,
             surfaced := false }]) rest

/-- The surfacing flag update applied to the chosen observation. -/
def markObs (total : Int) (o : Observation) : Observation :=
  { o with surfaced := true, surfaced_at_exchange := some total }

/-- In-place mutation of `get_unsurfaced_observations()[0]`: mark the
first stored observation that is unsurfaced with confidence at least 0.6,
leaving everything else untouched. -/
def markFirstEligible (total : Int) : List Observation → List Observation
  | [] => []
  | o :: os =>
    if !o.surfaced && decide ((3/5 : Rat) ≤ o.confidence) then
      markObs total o :: os
    else
      o :: markFirstEligible total os

/-- The index the surfacing step targets: the first unsurfaced
observation with confidence at least 0.6 (list length when none). -/
def firstEligibleIdx (l : List Observation) : Nat :=
  l.findIdx (fun o => !o.surfaced && decide ((3/5 : Rat) ≤ o.confidence))

/-- `_update_state_from_response`: move history, synthesis tracking,
synthesis points, core issue, response-declared threads and observations,
surfacing on an Observation move, and a response-driven phase
transition (with Python's falsy-string default for the reason). -/
def update_state_from_response (state : PsychologistConversationState)
    (response : AIResponseModel) : PsychologistConversationState :=
  let move := parse_move response.response_move
  let state := { state with
    last_move := some move,
    move_history := state.move_history ++ [move] }
  let state := if move = ResponseMove.synthesis then
      { state with last_synthesis_exchange := state.total_exchange_count }
    else state
  let state := { state with
    synthesis_points :=
      appendSynthesisPoints state.synthesis_points response.synthesis_points }
  let state := match response.core_issue with
    | some ci =>
      if ci ≠ "" then
        { state with core_issue_identified := true,
                     core_issue_statement := some ci }
      else state
    | none => state
  let state := { state with
    active_threads := appendResponseThreads state.total_exchange_count
      state.active_threads response.threads_detected }
  let state := { state with
    observations := appendResponseObs state.observations
      response.observations_detected }
  let state := if move = ResponseMove.observation then
      { state with
        observations := markFirstEligible state.total_exchange_count
          state.observations }
    else state
  if response.should_transition then
    state.advance_phase
      (match response.transition_reason with
       | some tr => if tr ≠ "" then tr else "AI indicated transition"
       | none => "AI indicated transition")
  else state

/-! ## Lemmas for claim C10 -/

/-- `advance_phase` never touches the observation list. -/
theorem advance_phase_observations (s : PsychologistConversationState)
    (reason : String) : (s.advance_phase reason).observations =
      s.observations := by
  unfold PsychologistConversationState.advance_phase
  cases s.get_next_phase with
  | none => rfl
  | some np =>
    dsimp only
    split <;> rfl

/-- Pointwise description of the surfacing step: exactly the first
eligible index is marked, everything else is unchanged. -/
theorem markFirstEligible_get? (total : Int) (l : List Observation) :
    ∀ i, (markFirstEligible total l).get? i =
      (if i = firstEligibleIdx l then (l.get? i).map (markObs total)
       else l.get? i) := by
  induction l with
  | nil =>
    intro i
    cases i <;> simp [markFirstEligible]
  | cons o os ih =>
    intro i
    rw [markFirstEligible]
    have hidx : firstEligibleIdx (o :: os) =
        (bif (!o.surfaced && decide ((3/5 : Rat) ≤ o.confidence)) then 0
         else firstEligibleIdx os + 1) := by
      unfold firstEligibleIdx
      rw [List.findIdx_cons]
    by_cases hp : (!o.surfaced && decide ((3/5 : Rat) ≤ o.confidence)) = true
    · have hz : firstEligibleIdx (o :: os) = 0 := by
        rw [hidx, hp, cond_true]
      rw [if_pos hp, hz]
      cases i with
      | zero => simp
      | succ j => simp
    · have hpf : (!o.surfaced && decide ((3/5 : Rat) ≤ o.confidence)) = false := by
        simpa using hp
      have hsu : firstEligibleIdx (o :: os) = firstEligibleIdx os + 1 := by
        rw [hidx, hpf, cond_false]
      rw [if_neg hp, hsu]
      cases i with
      | zero => simp
      | succ j =>
        simp only [List.get?_cons_succ]
        rw [ih j]
        by_cases hj : j = firstEligibleIdx os
        · rw [if_pos hj, if_pos (by omega)]
        · rw [if_neg hj, if_neg (by omega)]

/-- Everything strictly before the first eligible index fails the
eligibility test, and the entry at the index (when present) passes it. -/
theorem firstEligibleIdx_first (l : List Observation) :
    (∀ j o, j < firstEligibleIdx l → l.get? j = some o →
      ¬(o.surfaced = false ∧ (3/5 : Rat) ≤ o.confidence)) ∧
    (∀ o, l.get? (firstEligibleIdx l) = some o →
      o.surfaced = false ∧ (3/5 : Rat) ≤ o.confidence) := by
  induction l with
  | nil =>
    constructor
    · intro j o _ hj
      simp at hj
    · intro o h
      simp at h
  | cons a os ih =>
    have hidx : firstEligibleIdx (a :: os) =
        (bif (!a.surfaced && decide ((3/5 : Rat) ≤ a.confidence)) then 0
         else firstEligibleIdx os + 1) := by
      unfold firstEligibleIdx
      rw [List.findIdx_cons]
    by_cases hp : (!a.surfaced && decide ((3/5 : Rat) ≤ a.confidence)) = true
    · have hz : firstEligibleIdx (a :: os) = 0 := by
        rw [hidx, hp, cond_true]
      constructor
      · intro j o hj
        rw [hz] at hj
        omega
      · intro o h
        rw [hz, List.get?_cons_zero] at h
        cases h
        rw [Bool.and_eq_true, Bool.not_eq_true', decide_eq_true_eq] at hp
        exact ⟨hp.1, hp.2⟩
    · have hpf : (!a.surfaced && decide ((3/5 : Rat) ≤ a.confidence)) = false := by
        simpa using hp
      have hsu : firstEligibleIdx (a :: os) = firstEligibleIdx os + 1 := by
        rw [hidx, hpf, cond_false]
      constructor
      · intro j o hj ho
        rw [hsu] at hj
        cases j with
        | zero =>
          rw [List.get?_cons_zero] at ho
          cases ho
          intro hbad
          apply hp
          rw [Bool.and_eq_true, Bool.not_eq_true', decide_eq_true_eq]
          exact ⟨hbad.1, hbad.2⟩
        | succ j2 =>
          rw [List.get?_cons_succ] at ho
          exact ih.1 j2 o (by omega) ho
      · intro o h
        rw [hsu, List.get?_cons_succ] at h
        exact ih.2 o h

/-- The observation-append loop leaves the existing positions unchanged. -/
theorem appendResponseObs_get?_left :
    ∀ (ds : List ObsDict) (obs : List Observation) (i : Nat),
      i < obs.length → (appendResponseObs obs ds).get? i = obs.get? i := by
  intro ds
  induction ds with
  | nil => intro obs i h; rfl
  | cons d rest ih =>
    intro obs i h
    rw [appendResponseObs]
    split
    · exact ih obs i h
    · refine Eq.trans (ih _ i ?_) ?_
      · simp only [List.length_append, List.length_singleton]
        omega
      · exact List.get?_append h

/-- Positions added by the observation-append loop start unsurfaced. -/
theorem appendResponseObs_get?_new :
    ∀ (ds : List ObsDict) (obs : List Observation) (i : Nat) (o : Observation),
      obs.length ≤ i → (appendResponseObs obs ds).get? i = some o →
      o.surfaced = false := by
  intro ds
  induction ds with
  | nil =>
    intro obs i o hle h
    rw [appendResponseObs] at h
    rw [List.get?_eq_none.mpr hle] at h
    cases h
  | cons d rest ih =>
    intro obs i o hle h
    rw [appendResponseObs] at h
    split at h
    · exact ih obs i o hle h
    · by_cases hi : obs.length + 1 ≤ i
      · exact ih _ i o (by simpa using hi) h
      · have hieq : i = obs.length := by omega
        subst hieq
        rw [appendResponseObs_get?_left rest _ _ (by simp),
          List.get?_concat_length] at h
        cases h
        rfl

/-- The observation list produced by `_update_state_from_response`:
response observations are appended (deduplicated), then, on an
Observation move, exactly the surfacing update runs. -/
theorem update_state_from_response_observations
    (s : PsychologistConversationState) (r : AIResponseModel) :
    (update_state_from_response s r).observations =
      (if parse_move r.response_move = ResponseMove.observation
       then markFirstEligible s.total_exchange_count
         (appendResponseObs s.observations r.observations_detected)
       else appendResponseObs s.observations r.observations_detected) := by
  unfold update_state_from_response
  cases hc : r.core_issue <;> dsimp only <;> split_ifs <;>
    simp only [advance_phase_observations] <;> rfl

/-- C10: on an Observation move the engine surfaces exactly the first
stored observation that is unsurfaced with confidence at least 0.6
(positions other than that first eligible index are returned unchanged,
and everything before it fails the eligibility test); an observation with
confidence below 0.6 is returned identically, so it is never marked
surfaced; observations appended from the response start unsurfaced and
the pre-existing ones keep their stored values through the append. -/
theorem update_state_from_response_surfacing
    (s : PsychologistConversationState) (r : AIResponseModel) :
    ((update_state_from_response s r).observations =
      (if parse_move r.response_move = ResponseMove.observation
       then markFirstEligible s.total_exchange_count
         (appendResponseObs s.observations r.observations_detected)
       else appendResponseObs s.observations r.observations_detected)) ∧
    (∀ i, i ≠ firstEligibleIdx
        (appendResponseObs s.observations r.observations_detected) →
      (update_state_from_response s r).observations.get? i =
        (appendResponseObs s.observations r.observations_detected).get? i) ∧
    (∀ i o,
      (appendResponseObs s.observations r.observations_detected).get? i =
        some o →
      o.confidence < 3/5 →
      (update_state_from_response s r).observations.get? i = some o) ∧
    (∀ j o, j < firstEligibleIdx
        (appendResponseObs s.observations r.observations_detected) →
      (appendResponseObs s.observations r.observations_detected).get? j =
        some o →
      ¬(o.surfaced = false ∧ (3/5 : Rat) ≤ o.confidence)) ∧
    (∀ i, i < s.observations.length →
      (appendResponseObs s.observations r.observations_detected).get? i =
        s.observations.get? i) ∧
    (∀ i o, s.observations.length ≤ i →
      (appendResponseObs s.observations r.observations_detected).get? i =
        some o →
      o.surfaced = false) := by
  have hobs := update_state_from_response_observations s r
  refine ⟨hobs, ?_, ?_,
    (firstEligibleIdx_first _).1,
    fun i hi => appendResponseObs_get?_left _ _ i hi,
    fun i o hle h => appendResponseObs_get?_new _ _ i o hle h⟩
  · intro i hne
    rw [hobs]
    split
    · rw [markFirstEligible_get?, if_neg hne]
    · rfl
  · intro i o hget hconf
    rw [hobs]
    split
    · rw [markFirstEligible_get?]
      by_cases hi : i = firstEligibleIdx
          (appendResponseObs s.observations r.observations_detected)
      · exfalso
        have := (firstEligibleIdx_first
          (appendResponseObs s.observations r.observations_detected)).2 o
          (by rw [← hi]; exact hget)
        exact absurd this.2 (not_le.mpr hconf)
      · rw [if_neg hi]
        exact hget
    · exact hget

/-- A stored low-confidence unsurfaced observation. -/
def obsLow : Observation :=
  { id := "o1", type := "pattern", text := "low confidence hunch",
    confidence := 1/2, surfaced := false }

/-- A state holding only the low-confidence observation. -/
def sC10 : PsychologistConversationState :=
  { initialState with observations := [obsLow], total_exchange_count := 2 }

/-- An accepted Observation move with nothing else declared. -/
def rObsMove : AIResponseModel :=
  { response := "I notice something.", response_move := "observation" }

/-- C10 witness: with an Observation move accepted, the stored observation
of confidence 0.5 is returned identical — it is not marked surfaced. -/
theorem update_state_from_response_surfacing_witness :
    (update_state_from_response sC10 rObsMove).observations.get? 0 =
      some obsLow ∧
    obsLow.surfaced = false :=
  ⟨(update_state_from_response_surfacing sC10 rObsMove).2.2.1 0 obsLow rfl
      (by norm_num [obsLow]),
   rfl⟩

/-! ## The per-turn entry point (`process_message`) -/

/-- `PsychologistResponse`: the structured result of one processed turn. -/
structure PsychologistResponse where
  response : String
  response_move : ResponseMove
  question_reason : Option String := none
  suggested_options : Option (List String) := none
  state : PsychologistConversationState
  synthesis_points : List String := []
  core_issue : Option String := none
  ready_for_options : Bool := false
deriving DecidableEq

/-- The state as mutated in place by `process_message` before the
generation call: counter increments, pattern merge, and the phase-rule
transition. The detector's output and the uuid supplies are explicit
arguments. -/
def preGenState (pattern_result : PatternAnalysisResult)
    (thread_ids obs_ids : Nat → String)
    (current_state : Option PsychologistConversationState) :
    PsychologistConversationState :=
  let state := current_state.getD initialState
  let state := { state with
    total_exchange_count := state.total_exchange_count + 1,
    phase_exchange_count := state.phase_exchange_count + 1 }
  let state := update_state_with_patterns thread_ids obs_ids state
    pattern_result
  let st := state.should_transition_phase
  if st.1 then state.advance_phase (st.2.getD "") else state

/-- `process_message`: one full turn. The pair's second component is the
content of the shared state object the caller observes after the call —
the Python method mutates `current_state` in place, so it reflects the
pre-generation mutations even when the generation oracle fails and the
exception propagates (the `Except.error` result). -/
def process_message
    (gen : String → Nat → Except GenFailure AIResponseModel)
    (system_prompt : String)
    (pattern_result : PatternAnalysisResult)
    (thread_ids obs_ids : Nat → String)
    (current_state : Option PsychologistConversationState) :
    (Except GenFailure PsychologistResponse) × PsychologistConversationState :=
  let state := preGenState pattern_result thread_ids obs_ids current_state
  match generate_validated_response gen system_prompt state with
  | (.error e, _) => (.error e, state)
  | (.ok response, _) =>
    let state := update_state_from_response state response
    (.ok { response := response.response,
           response_move := parse_move response.response_move,
           question_reason := response.question_reason,
           suggested_options := response.suggested_options,
           state := state,
           synthesis_points := state.synthesis_points,
           core_issue := state.core_issue_statement,
           ready_for_options := state.ready_for_options }, state)

/-- A generation oracle that always fails. -/
def failGen : String → Nat → Except GenFailure AIResponseModel :=
  fun _ _ => Except.error GenFailure.failure

/-- An empty detector result. -/
def emptyPatterns : PatternAnalysisResult := {}

/-- An opaque system prompt used in concrete runs. -/
def promptEx : String := "prompt"

/-- A constant thread-id supply. -/
def tIds : Nat → String := fun _ => "t9"

/-- A constant observation-id supply. -/
def oIds : Nat → String := fun _ => "o9"

/-- C6 as stated fails: when the generation collaborator fails, the error
does propagate, but the state object the caller passed in has already
been mutated — its total exchange counter reads 1, not the pre-call 0 —
so retrying the turn does not start from the pre-call state. -/
theorem process_message_counterexample :
    (process_message failGen promptEx emptyPatterns tIds oIds
      (some initialState)).1 = Except.error GenFailure.failure ∧
    initialState.total_exchange_count = 0 ∧
    (process_message failGen promptEx emptyPatterns tIds oIds
      (some initialState)).2.total_exchange_count = 1 := by
  refine ⟨rfl, rfl, rfl⟩

/-- Counter bookkeeping of the pattern merge: it never touches the
exchange counters or the move history. -/
theorem update_state_with_patterns_counters (thread_ids obs_ids : Nat → String)
    (s : PsychologistConversationState) (p : PatternAnalysisResult) :
    (update_state_with_patterns thread_ids obs_ids s p).total_exchange_count =
      s.total_exchange_count ∧
    (update_state_with_patterns thread_ids obs_ids s p).move_history =
      s.move_history := by
  unfold update_state_with_patterns
  cases hp : p.dominant_emotion <;> dsimp only <;>
    first
    | (split_ifs <;> exact ⟨rfl, rfl⟩)
    | exact ⟨rfl, rfl⟩

/-- `advance_phase` never touches the total counter or the move history. -/
theorem advance_phase_counters (s : PsychologistConversationState)
    (reason : String) :
    (s.advance_phase reason).total_exchange_count = s.total_exchange_count ∧
    (s.advance_phase reason).move_history = s.move_history := by
  unfold PsychologistConversationState.advance_phase
  cases s.get_next_phase with
  | none => exact ⟨rfl, rfl⟩
  | some np =>
    dsimp only
    split <;> exact ⟨rfl, rfl⟩

/-- One loop step with a failing generation call returns the error after
that single call. -/
theorem generate_validated_response_aux_fail
    (gen : String → Nat → Except GenFailure AIResponseModel)
    (s : PsychologistConversationState) (prompt : String)
    (attempt calls r : Nat) (e : GenFailure)
    (hgen : gen prompt attempt = Except.error e) :
    generate_validated_response_aux gen s prompt attempt calls (r + 1) =
      (Except.error e, calls + 1) := by
  rw [generate_validated_response_aux, hgen]

/-- C6 amended: whenever the turn's generate-validate-regenerate loop
fails — the generation collaborator raising on the initial call or on any
regeneration attempt with its extended prompt — the error propagates as
the turn's error and the post-generation folding is skipped (the move
history is still the pre-call one), but the state the caller observes is
the pre-generation state, already mutated in place: in particular its
total exchange counter is the pre-call counter plus one, so a retry
replays onto a state that has counted the failed turn. -/
theorem process_message_gen_failure
    (gen : String → Nat → Except GenFailure AIResponseModel)
    (system_prompt : String) (pattern_result : PatternAnalysisResult)
    (thread_ids obs_ids : Nat → String)
    (current_state : Option PsychologistConversationState) (e : GenFailure)
    (hgen : (generate_validated_response gen system_prompt
        (preGenState pattern_result thread_ids obs_ids current_state)).1 =
      Except.error e) :
    process_message gen system_prompt pattern_result thread_ids obs_ids
        current_state =
      (Except.error e,
        preGenState pattern_result thread_ids obs_ids current_state) ∧
    (preGenState pattern_result thread_ids obs_ids
        current_state).total_exchange_count =
      (current_state.getD initialState).total_exchange_count + 1 ∧
    (preGenState pattern_result thread_ids obs_ids
        current_state).move_history =
      (current_state.getD initialState).move_history := by
  refine ⟨?_, ?_, ?_⟩
  · unfold process_message
    dsimp only
    rcases hq : generate_validated_response gen system_prompt
        (preGenState pattern_result thread_ids obs_ids current_state)
      with ⟨fst, snd⟩
    have hfst : fst = Except.error e := by
      rw [hq] at hgen
      exact hgen
    rw [hfst]
  · unfold preGenState
    dsimp only
    split
    · rw [(advance_phase_counters _ _).1,
        (update_state_with_patterns_counters _ _ _ _).1]
    · rw [(update_state_with_patterns_counters _ _ _ _).1]
  · unfold preGenState
    dsimp only
    split
    · rw [(advance_phase_counters _ _).2,
        (update_state_with_patterns_counters _ _ _ _).2]
    · rw [(update_state_with_patterns_counters _ _ _ _).2]

/-- An invalid candidate turn: two question marks force a regeneration. -/
def rTwoQ : AIResponseModel :=
  { response := "Why do you stay? What scares you?",
    response_move := "deepening_question" }

/-- A generation oracle that answers the initial call with the invalid
two-question turn and fails on the regeneration attempt. -/
def flakyGen : String → Nat → Except GenFailure AIResponseModel :=
  fun _ attempt =>
    if attempt = 0 then Except.ok rTwoQ else Except.error GenFailure.failure

/-- C6 amended witness: an oracle whose regeneration call (attempt 1, on
the corrected prompt) fails still yields the turn error, an observable
counter of 1, and an untouched move history. -/
theorem process_message_gen_failure_witness :
    process_message flakyGen promptEx emptyPatterns tIds oIds
        (some initialState) =
      (Except.error GenFailure.failure,
        preGenState emptyPatterns tIds oIds (some initialState)) ∧
    (preGenState emptyPatterns tIds oIds
        (some initialState)).total_exchange_count = 0 + 1 ∧
    (preGenState emptyPatterns tIds oIds (some initialState)).move_history =
      ([] : List ResponseMove) :=
  process_message_gen_failure flakyGen promptEx emptyPatterns tIds oIds
    (some initialState) GenFailure.failure rfl

end DecisionGpt
